import Mathlib

/-!
Verification of the Maya render adaptor subsystem
(`src/deadline/maya_adaptor/MayaAdaptor/adaptor.py` and
`src/deadline/maya_adaptor/MayaClient/dir_map.py`) against its
natural-language specification.

The embedding is shallow: the adaptor's mutable object state becomes an
explicit record, every lifecycle method becomes a pure function from the
pre-state (plus observations of the worker process / server thread, which
live outside the adaptor) to the post-state together with a list of the
externally visible calls and log lines it performs, and Python exceptions
become an explicit `PyExc` result component.
-/

namespace MayaAdaptor

/-- JSON-like values carried in `init_data` / action payloads. -/
inductive JValue where
  | str (s : String)
  | int (n : Int)
  | bool (b : Bool)
  | obj (kvs : List (String × JValue))

/-- `init_data` is a JSON object: an association list of keys to values
(Python `dict`, lookup by key). -/
def InitData : Type := List (String × JValue)

/-- An `openjd` `Action`: a named RPC request plus a data payload
(`Action(name, payload_dict)` in the source). -/
structure Action where
  name : String
  payload : List (String × JValue)

/-- Python exceptions raised by the adaptor code under verification. -/
inductive PyExc where
  | runtimeError (msg : String)
  | timeoutError (msg : String)
  | mayaNotRunningError (msg : String)
  | keyError (key : String)
  | validationError

/-- The part of a `LoggingSubprocess` the adaptor observes:
`is_running` and `returncode` (Python `None` while running). -/
structure ClientState where
  is_running : Bool
  returncode : Option Int

/-- The adaptor's instance fields that the verified methods read and write:
`_exc_info`, `_performing_cleanup`, `_is_rendering`, `_maya_client`,
`_action_queue`, the last progress reported through `update_status`,
`_server` / `_server_thread` presence, and `_arnold_temp_dir`. -/
structure AdaptorState where
  exc_info : Option PyExc
  performing_cleanup : Bool
  is_rendering : Bool
  maya_client : Option ClientState
  action_queue : List Action
  progress : Option Nat
  server : Bool
  server_thread : Bool
  arnold_temp_dir : Option String

/-- `MayaAdaptor._SERVER_END_TIMEOUT_SECONDS`. -/
def SERVER_END_TIMEOUT_SECONDS : Nat := 30

/-- `MayaAdaptor._MAYA_START_TIMEOUT_SECONDS`. -/
def MAYA_START_TIMEOUT_SECONDS : Nat := 86400

/-- `MayaAdaptor._MAYA_END_TIMEOUT_SECONDS`. -/
def MAYA_END_TIMEOUT_SECONDS : Nat := 30

/-- `MayaAdaptor._has_exception`: raises the stored `_exc_info` when it is
set and `_performing_cleanup` is false, otherwise returns `False`. -/
def has_exception (s : AdaptorState) : Except PyExc Bool :=
  match s.exc_info with
  | some e => if s.performing_cleanup then Except.ok false else Except.error e
  | none => Except.ok false

/-- The `_check_for_exception` decorator: `if not self._has_exception:
return func(self, ...)`.  A raise from `_has_exception` propagates (the
wrapped body never runs, so the adaptor state is untouched); the result
pairs the post-state with the propagated exception, if any. -/
def check_for_exception (func : AdaptorState → AdaptorState) (s : AdaptorState) :
    AdaptorState × Option PyExc :=
  match has_exception s with
  | Except.error e => (s, some e)
  | Except.ok b => if b then (s, none) else (func s, none)

/-- `MayaAdaptor._handle_complete` (body): clears the rendering flag and
reports progress 100. -/
def handle_complete (s : AdaptorState) : AdaptorState :=
  { s with is_rendering := false, progress := some 100 }

/-- `MayaAdaptor._handle_progress` (body): reports the integer captured by
the progress regex. -/
def handle_progress (captured : Nat) (s : AdaptorState) : AdaptorState :=
  { s with progress := some captured }

/-- `MayaAdaptor._maya_is_running`: the client is attached and running. -/
def maya_is_running (s : AdaptorState) : Bool :=
  match s.maya_client with
  | some c => c.is_running
  | none => false

/-- `MayaAdaptor._maya_is_rendering`. -/
def maya_is_rendering (s : AdaptorState) : Bool :=
  maya_is_running s && s.is_rendering

/-! ### `on_start`: the initialization wait loop and its outcome -/

/-- The continuation condition of `on_start`'s busy-wait loop,
`while self._maya_is_running and not self._has_exception and
len(self._action_queue) > 0 and is_not_timed_out()`, in the case where
`_has_exception` does not raise (a raise aborts `on_start` directly and
never reaches the post-loop check). -/
def start_wait_continue (running : Bool) (queue_len : Nat) (is_not_timed_out : Bool) : Bool :=
  running && decide (0 < queue_len) && is_not_timed_out

/-- Message of the `RuntimeError` raised by `on_start` when initialization
actions remain and the timer has not expired. -/
def start_init_error_msg : String :=
  "Maya encountered an error and was not able to complete initialization actions."

/-- Message of the `TimeoutError` raised by `on_start` when initialization
actions remain after the timer expired. -/
def start_timeout_msg : String :=
  "Maya did not complete initialization actions in " ++
    toString MAYA_START_TIMEOUT_SECONDS ++ " seconds and failed to start."

/-- The exception decision `on_start` makes after its wait loop exits
without `_has_exception` raising: keyed on `len(self._action_queue) > 0`
and the re-evaluated `is_not_timed_out()`; `none` means `on_start`
returns normally. -/
def on_start_after_wait (queue_len : Nat) (is_not_timed_out : Bool) : Option PyExc :=
  if 0 < queue_len then
    if is_not_timed_out then
      some (PyExc.runtimeError start_init_error_msg)
    else
      some (PyExc.timeoutError start_timeout_msg)
  else
    none

/-! ### `on_run`: per-frame render dispatch and its wait loop -/

/-- One tick of externally caused mutation observed between iterations of a
busy-wait loop: the server thread's regex handlers may rewrite
`_is_rendering`, `_exc_info` and the progress, and the worker process may
change liveness or exit. -/
structure StateUpdate where
  client : Option ClientState
  is_rendering : Bool
  exc_info : Option PyExc
  progress : Option Nat

/-- Apply one observed external mutation to the adaptor state. -/
def apply_update (s : AdaptorState) (u : StateUpdate) : AdaptorState :=
  { s with maya_client := u.client, is_rendering := u.is_rendering,
           exc_info := u.exc_info, progress := u.progress }

/-- `on_run`'s busy-wait `while self._maya_is_rendering and not
self._has_exception: sleep(0.1)`.  Python `and` short-circuits: when
`_maya_is_rendering` is false the loop exits without consulting
`_has_exception`; otherwise a pending exception raises out of the loop
condition.  The trace of external mutations drives the loop; `none` means
the trace was exhausted with the loop still spinning (the loop has no
timeout of its own). -/
def run_wait_loop : AdaptorState → List StateUpdate → Option (AdaptorState × Option PyExc)
  | s, [] =>
    if maya_is_rendering s then
      match has_exception s with
      | Except.error e => some (s, some e)
      | Except.ok _ => none
    else
      some (s, none)
  | s, u :: rest =>
    if maya_is_rendering s then
      match has_exception s with
      | Except.error e => some (s, some e)
      | Except.ok _ => run_wait_loop (apply_update s u) rest
    else
      some (s, none)

/-- Result of a lifecycle method: the post-state and either normal return
or a raised exception. -/
structure MethodResult where
  final : AdaptorState
  raised : Option PyExc

/-- Message of the `RuntimeError` raised when the worker exited during a
render (`exit_code` is `self._maya_client.returncode`, rendered the way a
Python f-string renders it, `None` included). -/
def run_exit_early_msg (exit_code : Option Int) : String :=
  "Maya exited early and did not render successfully, please check render logs. " ++
    "Exit code " ++ (match exit_code with
                     | some n => toString n
                     | none => "None")

/-- `MayaAdaptor.on_run(run_data)`: raise `MayaNotRunningError` unless the
worker is running; validate `run_data` (modelled by the `run_data_valid`
flag of the external schema validator); set the rendering flag, enqueue a
single `start_render` action, busy-wait; after the loop, if the worker is
no longer running (and the client object exists) raise a `RuntimeError`
reporting the exit code.  `none` means the wait loop never exits on the
given observation trace. -/
def on_run (s : AdaptorState) (run_data_valid : Bool) (run_data : List (String × JValue))
    (updates : List StateUpdate) : Option MethodResult :=
  if maya_is_running s = false then
    some { final := s,
           raised := some (PyExc.mayaNotRunningError "Cannot render because Maya is not running.") }
  else if run_data_valid = false then
    some { final := s, raised := some PyExc.validationError }
  else
    let s1 : AdaptorState :=
      { s with is_rendering := true,
               action_queue := s.action_queue ++ [Action.mk "start_render" run_data] }
    match run_wait_loop s1 updates with
    | none => none
    | some (s2, some e) => some { final := s2, raised := some e }
    | some (s2, none) =>
      if maya_is_running s2 = false && s2.maya_client.isSome then
        some { final := s2,
               raised := some (PyExc.runtimeError
                 (run_exit_early_msg ((s2.maya_client.map ClientState.returncode).getD none))) }
      else
        some { final := s2, raised := none }

/-! ### `on_cleanup` and `on_cancel` -/

/-- Externally visible effects performed by `on_cleanup` / `on_cancel`, in
program order. -/
inductive AdaptorCall where
  | set_performing_cleanup (value : Bool)
  | enqueue_front_close
  | terminate_client (grace_time_s : Option Nat)
  | server_shutdown
  | thread_join (timeout_s : Nat)
  | arnold_dir_cleanup
  | log_error (msg : String)
  | log_info (msg : String)
  deriving DecidableEq

/-- What `on_cleanup` observes from outside the adaptor: whether the worker
is still alive once the bounded busy-wait ends, and whether the server
thread is alive before / after the bounded `join`. -/
structure CleanupObs where
  running_after_wait : Bool
  thread_alive_before_join : Bool
  thread_alive_after_join : Bool

/-- `MayaAdaptor._cleanup_arnold_dir`: call `cleanup()` on the temporary
directory when one exists, then drop the reference. -/
def cleanup_arnold_dir (s : AdaptorState) : AdaptorState × List AdaptorCall :=
  ({ s with arnold_temp_dir := none },
   match s.arnold_temp_dir with
   | some _ => [AdaptorCall.arnold_dir_cleanup]
   | none => [])

/-- `MayaAdaptor.on_cleanup()`: set `_performing_cleanup`, push a `close`
action to the front of the queue, busy-wait (bounded by
`_MAYA_END_TIMEOUT_SECONDS`) for the worker to exit, force-terminate it
(logging an error) if it is still alive, shut down the server if one
exists, join the server thread with a bounded timeout (logging an error
when it stays alive), clean up the Arnold temporary directory, and clear
`_performing_cleanup`.  The function is total and its result carries no
exception: the source method contains no `raise`. -/
def on_cleanup (s : AdaptorState) (obs : CleanupObs) : AdaptorState × List AdaptorCall :=
  let s0 : AdaptorState := { s with performing_cleanup := true }
  let s1 : AdaptorState := { s0 with action_queue := Action.mk "close" [] :: s0.action_queue }
  let s2 : AdaptorState :=
    { s1 with maya_client :=
        s1.maya_client.map (fun c => { c with is_running := c.is_running && obs.running_after_wait }) }
  let term_calls : List AdaptorCall :=
    if maya_is_running s2 && s2.maya_client.isSome then
      [AdaptorCall.log_error
        ("Maya did not complete cleanup actions and failed to gracefully shutdown. " ++
         "Terminating."),
       AdaptorCall.terminate_client none]
    else []
  let server_calls : List AdaptorCall :=
    if s2.server then [AdaptorCall.server_shutdown] else []
  let join_calls : List AdaptorCall :=
    if s2.server_thread && obs.thread_alive_before_join then
      AdaptorCall.thread_join SERVER_END_TIMEOUT_SECONDS ::
        (if obs.thread_alive_after_join then
          [AdaptorCall.log_error "Failed to shutdown the Maya Adaptor server."]
        else [])
    else []
  let (s3, arnold_calls) := cleanup_arnold_dir s2
  ({ s3 with performing_cleanup := false },
   AdaptorCall.set_performing_cleanup true :: AdaptorCall.enqueue_front_close ::
     (term_calls ++ server_calls ++ join_calls ++ arnold_calls ++
      [AdaptorCall.set_performing_cleanup false]))

/-- `MayaAdaptor.on_cancel()`: log; if no client is attached or the worker
is not running, log and return; otherwise terminate the worker with
`grace_time_s=0`.  Total, no exception component: the source method
contains no `raise`. -/
def on_cancel (s : AdaptorState) : AdaptorState × List AdaptorCall :=
  let entry := AdaptorCall.log_info "CANCEL REQUESTED"
  if s.maya_client.isNone || maya_is_running s = false then
    (s, [entry, AdaptorCall.log_info "Nothing to cancel because Maya is not running"])
  else
    (s, [entry, AdaptorCall.terminate_client (some 0)])

/-! ### License-failure handler (`_handle_license_error`) -/

/-- How a Python f-string renders an `Optional[str]`: the string itself, or
the text `None`. -/
def pyOptStr : Option String → String
  | some v => v
  | none => "None"

/-- The message of the `RuntimeError` recorded by `_handle_license_error`:
the matched line, a fixed explanation, the free-disk figure
(`shutil.disk_usage(...).free // 1024 // 1024`), and the values of the
`MAYA_APP_DIR` and `ADSKFLEX_LICENSE_FILE` environment variables. -/
def license_error_message (env : String → Option String) (free_bytes : Nat)
    (matched : String) : String :=
  matched ++ "\n" ++
  "This error is typically associated with a licensing error" ++
  " when using MayaIO. Check your licensing configuration.\n" ++
  "Free disc space: " ++ toString (free_bytes / 1024 / 1024) ++ "M\n" ++
  "MAYA_APP_DIR: " ++ pyOptStr (env "MAYA_APP_DIR") ++ "\n" ++
  "ADSKFLEX_LICENSE_FILE: " ++ pyOptStr (env "ADSKFLEX_LICENSE_FILE")

/-- `MayaAdaptor._handle_license_error`: records the enriched
`RuntimeError` in `_exc_info`; `env` is the process environment and
`free_bytes` the free-space figure returned by `shutil.disk_usage`. -/
def handle_license_error (env : String → Option String) (free_bytes : Nat)
    (matched : String) (s : AdaptorState) : AdaptorState :=
  { s with exc_info := some (PyExc.runtimeError (license_error_message env free_bytes matched)) }

/-- `sub` occurs (contiguously) inside `msg`. -/
def StrContains (msg sub : String) : Prop :=
  ∃ p q : String, msg = p ++ sub ++ q

/-! ### `_populate_action_queue` -/

/-- `_FIRST_MAYA_ACTIONS`: actions which must be queued before any
others, in order. -/
def FIRST_MAYA_ACTIONS : List String := ["scene_file", "project_path"]

/-- `_MAYA_INIT_KEYS`: the remaining init keys the adaptor forwards.  The
source holds them in a Python `set`, whose iteration order is
unspecified; the list order here is the literal's order. -/
def MAYA_INIT_KEYS : List String :=
  ["camera", "image_height", "image_width", "output_file_path",
   "output_file_prefix", "render_layer", "render_setup_include_lights",
   "error_on_arnold_license_fail"]

/-- Python `dict.__getitem__`: the value, or a `KeyError`. -/
def dict_getitem (d : InitData) (k : String) : Except PyExc JValue :=
  match d.lookup k with
  | some v => Except.ok v
  | none => Except.error (PyExc.keyError k)

/-- `MayaAdaptor._action_from_action_item`:
`Action(item_name, {item_name: self.init_data[item_name]})`. -/
def action_from_action_item (init : InitData) (item_name : String) : Except PyExc Action := do
  let v ← dict_getitem init item_name
  return Action.mk item_name [(item_name, v)]

/-- The `for action_name in ...: enqueue(self._action_from_action_item(action_name))`
loops of `_populate_action_queue`: build one action per listed key, in
order, propagating a `KeyError` (Python would raise it out of the loop). -/
def actions_from_items (init : InitData) : List String → Except PyExc (List Action)
  | [] => Except.ok []
  | k :: rest => do
    let a ← action_from_action_item init k
    let as ← actions_from_items init rest
    return a :: as

/-- A path-mapping rule as the adaptor consumes it. -/
structure PathMappingRule where
  source_path : String
  destination_path : String

/-- `MayaAdaptor._populate_action_queue`: enqueue the `renderer` action,
the `path_mapping` action carrying the full rule set, the
`_FIRST_MAYA_ACTIONS` entries, then every `_MAYA_INIT_KEYS` entry present
in `init_data`.  The result is the list of actions in enqueue order. -/
def populate_action_queue (init : InitData) (rules : List PathMappingRule) :
    Except PyExc (List Action) := do
  let renderer_val ← dict_getitem init "renderer"
  let first ← actions_from_items init FIRST_MAYA_ACTIONS
  let rest ← actions_from_items init
    (MAYA_INIT_KEYS.filter (fun k => (List.lookup k init).isSome))
  return Action.mk "renderer" [("renderer", renderer_val)] ::
    Action.mk "path_mapping"
      [("path_mapping_rules",
        JValue.obj (rules.map fun r => (r.source_path, JValue.str r.destination_path)))] ::
    (first ++ rest)

/-! ### Arnold path-mapping side channel -/

/-- The local helper `get_arnold_osname` of `_setup_arnold_pathmapping`:
normalizes `sys.platform` to Arnold's OS names. -/
def get_arnold_osname (platform : String) : String :=
  if platform = "darwin" then "mac"
  else if platform = "win32" then "windows"
  else "linux"

/-- Python `s.replace("\\", "/")`: the pattern is a single character, so
the call replaces every backslash character with a forward slash. -/
def replaceBackslashes (s : String) : String :=
  String.mk (s.data.map fun c => if c = '\\' then '/' else c)

/-- The JSON document `_setup_arnold_pathmapping` writes: a single
top-level key (the normalized OS name) mapping each rule's source path to
its destination path, with every backslash replaced by a forward slash. -/
def arnold_pathmapping_rules (platform : String) (rules : List PathMappingRule) :
    List (String × List (String × String)) :=
  [(get_arnold_osname platform,
    rules.map fun r =>
      (replaceBackslashes r.source_path, replaceBackslashes r.destination_path))]

/-- The outcome of `_setup_arnold_pathmapping`: the JSON document, the
file it is written to inside the fresh `tempfile.TemporaryDirectory`
(created with owner-only permissions), and the value stored in the
`ARNOLD_PATHMAP` environment variable. -/
structure ArnoldPathmapSetup where
  json_doc : List (String × List (String × String))
  file_path : String
  env_ARNOLD_PATHMAP : String

/-- `MayaAdaptor._setup_arnold_pathmapping`, with the fresh temporary
directory's name supplied by the OS. -/
def setup_arnold_pathmapping (platform : String) (rules : List PathMappingRule)
    (temp_dir_name : String) : ArnoldPathmapSetup :=
  let file := temp_dir_name ++ "/arnold_pathmapping.json"
  { json_doc := arnold_pathmapping_rules platform rules,
    file_path := file,
    env_ARNOLD_PATHMAP := file }

/-- The steps of `MayaAdaptor._start_maya_client` relevant to ordering:
the Arnold side-channel setup runs (only) for the `arnold` renderer, and
always before the `LoggingSubprocess` spawning the worker is created. -/
inductive StartClientStep where
  | setup_arnold_pathmapping_step
  | spawn_worker
  deriving DecidableEq

/-- The ordered steps `_start_maya_client` performs for a given renderer
name (`self.init_data["renderer"]`). -/
def start_maya_client_steps (renderer : String) : List StartClientStep :=
  (if renderer = "arnold" then [StartClientStep.setup_arnold_pathmapping_step] else []) ++
    [StartClientStep.spawn_worker]

end MayaAdaptor

namespace DirMap

/-- Python extended slice `l[::2]` (indices 0, 2, 4, ...). -/
def sliceStride2 {α : Type} : List α → List α
  | [] => []
  | [a] => [a]
  | a :: _ :: rest => a :: sliceStride2 rest

/-- `DirectoryMappingDict.items` over the flat alternating list returned
by `maya.cmds.dirmap(getAllMappings=True)`:
`list(zip(all_mappings[::2], all_mappings[1::]))` — note the second slice
has stride 1 (`[1::]`), not 2. -/
def items (all_mappings : List String) : List (String × String) :=
  (sliceStride2 all_mappings).zip (all_mappings.drop 1)

/-- `DirectoryMappingDict.keys`: `all_mappings[::2]`. -/
def keys (all_mappings : List String) : List String :=
  sliceStride2 all_mappings

/-- `DirectoryMappingDict.values`: `all_mappings[1::2]`. -/
def values (all_mappings : List String) : List String :=
  sliceStride2 (all_mappings.drop 1)

end DirMap

namespace MayaAdaptor

/-! ## Claim theorems -/

/-- C2: `_has_exception` raises the recorded exception exactly when
`_exc_info` is set and `_performing_cleanup` is false, and returns `False`
otherwise; consequently the `_check_for_exception`-guarded
`_handle_complete` and `_handle_progress` do not update the rendering
state or the progress once a fatal exception has been recorded, except
during cleanup, where the guard is bypassed and the handler bodies
execute. -/
theorem C2_exception_guard (s : AdaptorState) :
    (∀ e : PyExc, has_exception s = Except.error e ↔
      (s.exc_info = some e ∧ s.performing_cleanup = false))
    ∧ ((s.exc_info = none ∨ s.performing_cleanup = true) →
        has_exception s = Except.ok false)
    ∧ (∀ e : PyExc, s.exc_info = some e → s.performing_cleanup = false →
        (check_for_exception handle_complete s).1 = s ∧
        ∀ n : Nat, (check_for_exception (handle_progress n) s).1 = s)
    ∧ (s.performing_cleanup = true →
        check_for_exception handle_complete s = (handle_complete s, none) ∧
        ∀ n : Nat, check_for_exception (handle_progress n) s = (handle_progress n s, none)) := by
  rcases s with ⟨exc, pc, ir, mc, aq, pr, sv, st, ad⟩
  cases exc <;> cases pc <;>
    simp [has_exception, check_for_exception]

/-- A state with a recorded fatal exception, outside of cleanup. -/
def C2_ex_state : AdaptorState :=
  { exc_info := some (PyExc.runtimeError "Maya Encountered an Error: boom"),
    performing_cleanup := false, is_rendering := true, maya_client := none,
    action_queue := [], progress := some 40, server := true,
    server_thread := true, arnold_temp_dir := none }

/-- Witness for C2: on a concrete state with a pending exception and
cleanup not in progress, the guarded complete-handler leaves the state
unchanged. -/
theorem C2_exception_guard_witness :
    (check_for_exception handle_complete C2_ex_state).1 = C2_ex_state :=
  ((C2_exception_guard C2_ex_state).2.2.1
    (PyExc.runtimeError "Maya Encountered an Error: boom") rfl rfl).1

/-- C1: when `on_start`'s wait loop has exited (without `_has_exception`
raising) and initialization actions remain queued, `on_start` raises a
`TimeoutError` naming the configured 86400-second timeout if the timer
expired, and a `RuntimeError` reporting an initialization failure if the
timer had not expired — in which case the loop can only have exited
because the worker was no longer running; it returns normally exactly
when the queue was drained. -/
theorem C1_on_start_outcomes (running : Bool) (queue_len : Nat) (is_not_timed_out : Bool)
    (hexit : start_wait_continue running queue_len is_not_timed_out = false) :
    (on_start_after_wait queue_len is_not_timed_out = none ↔ queue_len = 0)
    ∧ (0 < queue_len → is_not_timed_out = false →
        on_start_after_wait queue_len is_not_timed_out =
          some (PyExc.timeoutError start_timeout_msg) ∧
        StrContains start_timeout_msg (toString MAYA_START_TIMEOUT_SECONDS) ∧
        MAYA_START_TIMEOUT_SECONDS = 86400)
    ∧ (0 < queue_len → is_not_timed_out = true →
        running = false ∧
        on_start_after_wait queue_len is_not_timed_out =
          some (PyExc.runtimeError start_init_error_msg)) := by
  refine ⟨?_, ?_, ?_⟩
  · constructor
    · intro h
      by_contra hq
      have : 0 < queue_len := Nat.pos_of_ne_zero hq
      simp [on_start_after_wait, this] at h
      split at h <;> simp_all
    · intro h
      simp [on_start_after_wait, h]
  · intro hq ht
    subst ht
    refine ⟨by simp [on_start_after_wait, hq], ?_, rfl⟩
    exact ⟨"Maya did not complete initialization actions in ",
           " seconds and failed to start.", rfl⟩
  · intro hq ht
    subst ht
    constructor
    · simp [start_wait_continue, hq] at hexit
      exact hexit
    · simp [on_start_after_wait, hq]

/-- Witness for C1: wait-loop exit with one queued action and the timer
expired yields the `TimeoutError`, whose message names 86400. -/
theorem C1_on_start_outcomes_witness :
    on_start_after_wait 1 false = some (PyExc.timeoutError start_timeout_msg) ∧
    StrContains start_timeout_msg (toString MAYA_START_TIMEOUT_SECONDS) ∧
    MAYA_START_TIMEOUT_SECONDS = 86400 :=
  (C1_on_start_outcomes false 1 false rfl).2.1 (by decide) rfl

end MayaAdaptor

namespace MayaAdaptor

/-- `_maya_is_rendering` entails `_maya_is_running`. -/
theorem maya_is_running_of_rendering (s : AdaptorState)
    (h : maya_is_rendering s = true) : maya_is_running s = true := by
  simp [maya_is_rendering, Bool.and_eq_true] at h
  exact h.1

/-- When `on_run`'s wait loop terminates, either it exited normally with
the rendering condition false, or a pending exception was raised from the
loop condition — which can only happen while `_maya_is_rendering` (and
hence `_maya_is_running`) was still true, since Python's `and`
short-circuits. -/
theorem run_wait_loop_exit (updates : List StateUpdate) :
    ∀ (s s2 : AdaptorState) (oe : Option PyExc),
      run_wait_loop s updates = some (s2, oe) →
      (oe = none → maya_is_rendering s2 = false) ∧
      (∀ e, oe = some e →
        maya_is_rendering s2 = true ∧ maya_is_running s2 = true ∧
        has_exception s2 = Except.error e) := by
  induction updates with
  | nil =>
    intro s s2 oe h
    by_cases hr : maya_is_rendering s = true
    · simp [run_wait_loop, hr] at h
      rcases he : has_exception s with e | b
      · simp [he] at h
        obtain ⟨rfl, rfl⟩ := h
        refine ⟨by simp, fun e' he' => ?_⟩
        obtain rfl : e = e' := by simpa using he'
        exact ⟨hr, maya_is_running_of_rendering _ hr, he⟩
      · simp [he] at h
    · simp [run_wait_loop, hr] at h
      obtain ⟨rfl, rfl⟩ := h
      exact ⟨fun _ => by simpa using hr, fun e he => by simp at he⟩
  | cons u rest ih =>
    intro s s2 oe h
    by_cases hr : maya_is_rendering s = true
    · simp [run_wait_loop, hr] at h
      rcases he : has_exception s with e | b
      · simp [he] at h
        obtain ⟨rfl, rfl⟩ := h
        refine ⟨by simp, fun e' he' => ?_⟩
        obtain rfl : e = e' := by simpa using he'
        exact ⟨hr, maya_is_running_of_rendering _ hr, he⟩
      · simp [he] at h
        exact ih (apply_update s u) s2 oe h
    · simp [run_wait_loop, hr] at h
      obtain ⟨rfl, rfl⟩ := h
      exact ⟨fun _ => by simpa using hr, fun e he => by simp at he⟩

end MayaAdaptor

namespace MayaAdaptor

/-- C5: `on_run` on a non-running worker raises `MayaNotRunningError`
immediately: the result is independent of the run payload, of its
validity (the error fires before validation), and of any observation
trace (no polling happens), and the final state is exactly the pre-state
— no action enqueued, rendering flag unchanged. -/
theorem C5_not_running_raises (s : AdaptorState) (run_data_valid : Bool)
    (run_data : List (String × JValue)) (updates : List StateUpdate)
    (h : maya_is_running s = false) :
    on_run s run_data_valid run_data updates =
      some { final := s,
             raised := some (PyExc.mayaNotRunningError
               "Cannot render because Maya is not running.") } := by
  simp [on_run, h]

/-- A state whose worker client exited with code 1. -/
def C5_ex_state : AdaptorState :=
  { exc_info := none, performing_cleanup := false, is_rendering := false,
    maya_client := some { is_running := false, returncode := some 1 },
    action_queue := [], progress := none, server := true,
    server_thread := true, arnold_temp_dir := none }

/-- Witness for C5: concrete dead-worker state, an invalid payload and a
non-empty observation trace still produce the immediate
`MayaNotRunningError` with the state untouched. -/
theorem C5_not_running_raises_witness :
    on_run C5_ex_state false [("frame", JValue.int 2)]
        [{ client := none, is_rendering := true, exc_info := none, progress := none }] =
      some { final := C5_ex_state,
             raised := some (PyExc.mayaNotRunningError
               "Cannot render because Maya is not running.") } :=
  C5_not_running_raises C5_ex_state false [("frame", JValue.int 2)]
    [{ client := none, is_rendering := true, exc_info := none, progress := none }] rfl

/-- C4: whenever `on_run`'s render wait loop ends with the worker process
no longer running (its client object still attached), `on_run` raises a
`RuntimeError` whose message reports the worker's observed exit code; the
statement places no constraint on the final rendering flag, so the exit
is fatal even when a render-complete line was observed and cleared the
flag. -/
theorem C4_worker_exit_fatal (s : AdaptorState) (run_data : List (String × JValue))
    (updates : List StateUpdate) (res : MethodResult) (c : ClientState)
    (hrun : maya_is_running s = true)
    (hres : on_run s true run_data updates = some res)
    (hclient : res.final.maya_client = some c)
    (hdead : c.is_running = false) :
    res.raised = some (PyExc.runtimeError (run_exit_early_msg c.returncode)) ∧
    ∀ n : Int, c.returncode = some n →
      StrContains (run_exit_early_msg c.returncode) (toString n) := by
  have hmsg : ∀ n : Int, c.returncode = some n →
      StrContains (run_exit_early_msg c.returncode) (toString n) := by
    intro n hn
    refine ⟨"Maya exited early and did not render successfully, please check render logs. " ++
      "Exit code ", "", ?_⟩
    simp [run_exit_early_msg, hn]
  refine ⟨?_, hmsg⟩
  rw [on_run] at hres
  simp [hrun] at hres
  rcases hloop : run_wait_loop
      { s with is_rendering := true,
               action_queue := s.action_queue ++ [Action.mk "start_render" run_data] }
      updates with _ | ⟨s2, oe⟩
  · simp [hloop] at hres
  · rcases oe with _ | e
    · -- loop exited normally: the post-loop liveness check fires
      simp [hloop] at hres
      have hfin : res.final = s2 := by
        by_cases hc : (maya_is_running s2 = false ∧ s2.maya_client.isSome = true)
        · rw [if_pos hc] at hres
          rw [← Option.some.inj hres]
        · rw [if_neg hc] at hres
          rw [← Option.some.inj hres]
      have hmc : s2.maya_client = some c := by rw [← hfin]; exact hclient
      have hdead2 : maya_is_running s2 = false := by
        simp [maya_is_running, hmc, hdead]
      rw [if_pos ⟨hdead2, by simp [hmc]⟩] at hres
      rw [← Option.some.inj hres]
      simp [hmc]
    · -- loop raised the pending exception: the worker was still running
      have hrend := (run_wait_loop_exit updates _ s2 (some e) hloop).2 e rfl
      simp [hloop] at hres
      rw [← hres] at hclient
      simp at hclient
      have : maya_is_running s2 = true := hrend.2.1
      rw [maya_is_running, hclient] at this
      simp [hdead] at this

end MayaAdaptor

namespace MayaAdaptor

/-- Pre-state for the C4 witness: live worker, idle. -/
def C4_ex_state : AdaptorState :=
  { exc_info := none, performing_cleanup := false, is_rendering := false,
    maya_client := some { is_running := true, returncode := none },
    action_queue := [], progress := none, server := true,
    server_thread := true, arnold_temp_dir := none }

/-- Observation for the C4 witness: a render-complete line was seen
(rendering flag cleared, progress 100) and the worker died with exit
code 137. -/
def C4_ex_update : StateUpdate :=
  { client := some { is_running := false, returncode := some 137 },
    is_rendering := false, exc_info := none, progress := some 100 }

/-- The state in which the C4 witness run ends. -/
def C4_ex_final : AdaptorState :=
  { exc_info := none, performing_cleanup := false, is_rendering := false,
    maya_client := some { is_running := false, returncode := some 137 },
    action_queue := [Action.mk "start_render" []], progress := some 100,
    server := true, server_thread := true, arnold_temp_dir := none }

/-- The result of the C4 witness run. -/
def C4_ex_res : MethodResult :=
  { final := C4_ex_final,
    raised := some (PyExc.runtimeError (run_exit_early_msg (some 137))) }

/-- Witness for C4: a worker death during the render is fatal with the
exit code reported, even though the render-complete line cleared the
rendering flag first. -/
theorem C4_worker_exit_fatal_witness :
    (on_run C4_ex_state true [] [C4_ex_update]).map MethodResult.raised =
      some (some (PyExc.runtimeError (run_exit_early_msg (some 137)))) := by
  have h := C4_worker_exit_fatal C4_ex_state [] [C4_ex_update] C4_ex_res
    { is_running := false, returncode := some 137 } rfl rfl rfl rfl
  exact congrArg some h.1

/-- Recognize the worker-terminate calls among an effect trace. -/
def is_terminate_call : AdaptorCall → Bool
  | AdaptorCall.terminate_client _ => true
  | _ => false

/-- C7: `on_cancel` never mutates the adaptor state and never raises (it
is total with no exception component); with no client attached or a
non-running worker it performs no terminate call (a logged no-op), and
with a live worker it performs exactly one terminate call, with a grace
period of zero. -/
theorem C7_cancel (s : AdaptorState) :
    (on_cancel s).1 = s
    ∧ ((s.maya_client = none ∨ maya_is_running s = false) →
        (on_cancel s).2.filter is_terminate_call = [])
    ∧ (maya_is_running s = true →
        (on_cancel s).2.filter is_terminate_call =
          [AdaptorCall.terminate_client (some 0)]) := by
  rcases hmc : s.maya_client with _ | c
  · refine ⟨by simp [on_cancel, hmc], ?_, ?_⟩
    · intro _
      simp [on_cancel, hmc, is_terminate_call]
    · intro hr
      rw [maya_is_running, hmc] at hr
      simp at hr
  · by_cases hr : maya_is_running s = true
    · refine ⟨?_, ?_, ?_⟩
      · simp [on_cancel, hmc, hr]
      · intro hcase
        rcases hcase with h | h
        · simp [hmc] at h
        · rw [h] at hr; simp at hr
      · intro _
        simp [on_cancel, hmc, hr, is_terminate_call]
    · have hr' : maya_is_running s = false := by
        rcases hb : maya_is_running s
        · rfl
        · exact absurd hb hr
      refine ⟨by simp [on_cancel, hr'], ?_, ?_⟩
      · intro _
        simp [on_cancel, hr', is_terminate_call]
      · intro h
        rw [h] at hr'
        simp at hr'

/-- Witness for C7: cancelling with a live worker terminates it exactly
once with zero grace, and leaves the adaptor state unchanged. -/
theorem C7_cancel_witness :
    (on_cancel C4_ex_state).1 = C4_ex_state ∧
    (on_cancel C4_ex_state).2.filter is_terminate_call =
      [AdaptorCall.terminate_client (some 0)] :=
  ⟨(C7_cancel C4_ex_state).1, (C7_cancel C4_ex_state).2.2 rfl⟩

end MayaAdaptor

namespace MayaAdaptor

/-- C6: every `on_cleanup` run opens by setting the cleanup-in-progress
flag and closes by clearing it; it pushes exactly one `close` action to
the front of the queue; it terminates the worker (logging an error)
exactly when the worker is still alive after the bounded wait; it shuts
down the server when one exists and joins the server thread with the
bounded `_SERVER_END_TIMEOUT_SECONDS`; it clears the Arnold temporary
directory; and it never raises — `on_cleanup` is a total function whose
result has no exception component, matching the `raise`-free source. -/
theorem C6_cleanup (s : AdaptorState) (obs : CleanupObs) :
    (on_cleanup s obs).1.performing_cleanup = false
    ∧ (on_cleanup s obs).1.action_queue = Action.mk "close" [] :: s.action_queue
    ∧ (on_cleanup s obs).2.head? = some (AdaptorCall.set_performing_cleanup true)
    ∧ (on_cleanup s obs).2.getLast? = some (AdaptorCall.set_performing_cleanup false)
    ∧ (on_cleanup s obs).2.count AdaptorCall.enqueue_front_close = 1
    ∧ ((maya_is_running s && obs.running_after_wait) = true →
        (on_cleanup s obs).2.filter is_terminate_call = [AdaptorCall.terminate_client none] ∧
        AdaptorCall.log_error
          ("Maya did not complete cleanup actions and failed to gracefully shutdown. " ++
           "Terminating.") ∈ (on_cleanup s obs).2)
    ∧ ((maya_is_running s && obs.running_after_wait) = false →
        (on_cleanup s obs).2.filter is_terminate_call = [])
    ∧ (s.server = true → AdaptorCall.server_shutdown ∈ (on_cleanup s obs).2)
    ∧ (s.server_thread = true → obs.thread_alive_before_join = true →
        AdaptorCall.thread_join SERVER_END_TIMEOUT_SECONDS ∈ (on_cleanup s obs).2)
    ∧ (on_cleanup s obs).1.arnold_temp_dir = none := by
  rcases s with ⟨exc, pc, ir, mc, aq, pr, sv, st, ad⟩
  rcases obs with ⟨rw_, tb, ta⟩
  rcases mc with _ | ⟨cir, crc⟩ <;>
    [skip; cases cir] <;>
    cases rw_ <;> cases sv <;> cases st <;> cases tb <;> cases ta <;>
    rcases ad with _ | a <;>
    simp [on_cleanup, cleanup_arnold_dir, maya_is_running, is_terminate_call,
      SERVER_END_TIMEOUT_SECONDS]

end MayaAdaptor

namespace MayaAdaptor

/-- Worker-alive cleanup state for the C6 witness. -/
def C6_ex_state : AdaptorState :=
  { exc_info := some (PyExc.runtimeError "earlier failure"),
    performing_cleanup := false, is_rendering := true,
    maya_client := some { is_running := true, returncode := none },
    action_queue := [Action.mk "camera" []], progress := some 10, server := true,
    server_thread := true, arnold_temp_dir := some "/tmp/arnoldq1w2" }

/-- Cleanup observation for the C6 witness: the worker never exits and the
server thread joins in time. -/
def C6_ex_obs : CleanupObs :=
  { running_after_wait := true, thread_alive_before_join := true,
    thread_alive_after_join := false }

/-- Witness for C6: with a worker that never exits, cleanup still clears
the flag, terminates the worker exactly once, shuts the server down and
drops the Arnold directory. -/
theorem C6_cleanup_witness :
    (on_cleanup C6_ex_state C6_ex_obs).1.performing_cleanup = false ∧
    (on_cleanup C6_ex_state C6_ex_obs).2.filter is_terminate_call =
      [AdaptorCall.terminate_client none] ∧
    AdaptorCall.server_shutdown ∈ (on_cleanup C6_ex_state C6_ex_obs).2 ∧
    AdaptorCall.thread_join SERVER_END_TIMEOUT_SECONDS ∈ (on_cleanup C6_ex_state C6_ex_obs).2 ∧
    (on_cleanup C6_ex_state C6_ex_obs).1.arnold_temp_dir = none := by
  have h := C6_cleanup C6_ex_state C6_ex_obs
  exact ⟨h.1, (h.2.2.2.2.2.1 rfl).1, h.2.2.2.2.2.2.2.1 rfl,
    h.2.2.2.2.2.2.2.2.1 rfl rfl, h.2.2.2.2.2.2.2.2.2⟩

/-- C8: the license-error handler records a pending `RuntimeError` whose
message contains the matched text, the free-disk figure, and the verbatim
values of `MAYA_APP_DIR` and `ADSKFLEX_LICENSE_FILE`; outside of cleanup,
the next `_has_exception` check raises exactly that exception. -/
theorem C8_license_error (env : String → Option String) (free_bytes : Nat)
    (matched : String) (s : AdaptorState) (appdir lic : String)
    (happ : env "MAYA_APP_DIR" = some appdir)
    (hlic : env "ADSKFLEX_LICENSE_FILE" = some lic)
    (hclean : s.performing_cleanup = false) :
    (handle_license_error env free_bytes matched s).exc_info =
      some (PyExc.runtimeError (license_error_message env free_bytes matched))
    ∧ StrContains (license_error_message env free_bytes matched) matched
    ∧ StrContains (license_error_message env free_bytes matched)
        (toString (free_bytes / 1024 / 1024) ++ "M")
    ∧ StrContains (license_error_message env free_bytes matched) appdir
    ∧ StrContains (license_error_message env free_bytes matched) lic
    ∧ has_exception (handle_license_error env free_bytes matched s) =
        Except.error (PyExc.runtimeError (license_error_message env free_bytes matched)) := by
  refine ⟨by simp [handle_license_error], ?_, ?_, ?_, ?_, ?_⟩
  · refine ⟨"", "\n" ++
      "This error is typically associated with a licensing error" ++
      " when using MayaIO. Check your licensing configuration.\n" ++
      "Free disc space: " ++ toString (free_bytes / 1024 / 1024) ++ "M\n" ++
      "MAYA_APP_DIR: " ++ appdir ++ "\n" ++
      "ADSKFLEX_LICENSE_FILE: " ++ lic, ?_⟩
    simp [license_error_message, happ, hlic, pyOptStr, String.append_assoc,
      String.empty_append]
  · refine ⟨matched ++ "\n" ++
      "This error is typically associated with a licensing error" ++
      " when using MayaIO. Check your licensing configuration.\n" ++
      "Free disc space: ",
      "\n" ++ "MAYA_APP_DIR: " ++ appdir ++ "\n" ++
      "ADSKFLEX_LICENSE_FILE: " ++ lic, ?_⟩
    simp [license_error_message, happ, hlic, pyOptStr, String.append_assoc,
      String.empty_append, show ("M\n" : String) = "M" ++ "\n" from rfl]
    rfl
  · refine ⟨matched ++ "\n" ++
      "This error is typically associated with a licensing error" ++
      " when using MayaIO. Check your licensing configuration.\n" ++
      "Free disc space: " ++ toString (free_bytes / 1024 / 1024) ++ "M\n" ++
      "MAYA_APP_DIR: ",
      "\n" ++ "ADSKFLEX_LICENSE_FILE: " ++ lic, ?_⟩
    simp [license_error_message, happ, hlic, pyOptStr, String.append_assoc,
      String.empty_append]
  · refine ⟨matched ++ "\n" ++
      "This error is typically associated with a licensing error" ++
      " when using MayaIO. Check your licensing configuration.\n" ++
      "Free disc space: " ++ toString (free_bytes / 1024 / 1024) ++ "M\n" ++
      "MAYA_APP_DIR: " ++ appdir ++ "\n" ++
      "ADSKFLEX_LICENSE_FILE: ", "", ?_⟩
    simp [license_error_message, happ, hlic, pyOptStr, String.append_assoc,
      String.empty_append, String.append_empty]
  · simp [handle_license_error, has_exception, hclean]

end MayaAdaptor

namespace MayaAdaptor

/-- Environment for the C8 witness. -/
def C8_ex_env : String → Option String := fun k =>
  if k = "MAYA_APP_DIR" then some "/home/user/maya"
  else if k = "ADSKFLEX_LICENSE_FILE" then some "27000@license-host"
  else none

/-- The generic Maya license-failure line for the C8 witness. -/
def C8_ex_matched : String :=
  "RuntimeError: Error encountered when initializing Maya - " ++
  "Please check for sufficient disk space " ++
  "and necessary write permissions of MAYA_APP_DIR."

/-- Adaptor state for the C8 witness (not performing cleanup). -/
def C8_ex_state : AdaptorState :=
  { exc_info := none, performing_cleanup := false, is_rendering := true,
    maya_client := some { is_running := true, returncode := none },
    action_queue := [], progress := some 10, server := true,
    server_thread := true, arnold_temp_dir := none }

/-- Witness for C8: with both license environment variables set to known
values, the recorded message contains them verbatim and the next
`_has_exception` check raises the recorded `RuntimeError`. -/
theorem C8_license_error_witness :
    StrContains (license_error_message C8_ex_env 52428800 C8_ex_matched) "/home/user/maya"
    ∧ StrContains (license_error_message C8_ex_env 52428800 C8_ex_matched) "27000@license-host"
    ∧ has_exception (handle_license_error C8_ex_env 52428800 C8_ex_matched C8_ex_state) =
        Except.error (PyExc.runtimeError
          (license_error_message C8_ex_env 52428800 C8_ex_matched)) := by
  have h := C8_license_error C8_ex_env 52428800 C8_ex_matched C8_ex_state
    "/home/user/maya" "27000@license-host" rfl rfl rfl
  exact ⟨h.2.2.2.1, h.2.2.2.2.1, h.2.2.2.2.2⟩

/-- When every key of `l` is present in `init`, building the actions for
`l` succeeds and yields one action per key, in order, each carrying the
key's `init_data` value as its single-entry payload. -/
theorem actions_from_items_ok (init : InitData) :
    ∀ l : List String, (∀ k ∈ l, (List.lookup k init).isSome) →
    ∃ acts : List Action,
      actions_from_items init l = Except.ok acts ∧
      acts.map Action.name = l ∧
      ∀ a ∈ acts, ∃ v, List.lookup a.name init = some v ∧ a.payload = [(a.name, v)] := by
  intro l
  induction l with
  | nil =>
    intro _
    exact ⟨[], rfl, rfl, by simp⟩
  | cons k rest ih =>
    intro h
    obtain ⟨v, hv⟩ := Option.isSome_iff_exists.mp (h k (by simp))
    obtain ⟨acts, hacts, hnames, hpay⟩ := ih (fun k' hk' => h k' (by simp [hk']))
    refine ⟨Action.mk k [(k, v)] :: acts, ?_, by simp [hnames], ?_⟩
    · simp [actions_from_items, action_from_action_item, dict_getitem, hv, hacts]
      rfl
    · intro a ha
      rcases List.mem_cons.mp ha with rfl | ha'
      · exact ⟨v, hv, rfl⟩
      · exact hpay a ha'

end MayaAdaptor

namespace MayaAdaptor

/-- C3 (amended): for every valid initialization payload,
`_populate_action_queue` enqueues the `renderer` action first, then the
`path_mapping` action with the full rule set, then `scene_file` and
`project_path`, then one action per `_MAYA_INIT_KEYS` member present in
the payload; every enqueued action's name is drawn from that recognized
set, and in particular `animation`, `strict_error_checking` and `version`
are never forwarded as actions. -/
theorem C3_action_queue_order (init : InitData) (rules : List PathMappingRule)
    (h_renderer : (List.lookup "renderer" init).isSome)
    (h_scene : (List.lookup "scene_file" init).isSome)
    (h_proj : (List.lookup "project_path" init).isSome) :
    ∃ q : List Action,
      populate_action_queue init rules = Except.ok q ∧
      q.map Action.name =
        "renderer" :: "path_mapping" ::
          (FIRST_MAYA_ACTIONS ++
            MAYA_INIT_KEYS.filter (fun k => (List.lookup k init).isSome)) ∧
      (∀ a ∈ q, a.name ∈
        "renderer" :: "path_mapping" :: (FIRST_MAYA_ACTIONS ++ MAYA_INIT_KEYS)) ∧
      (∀ k ∈ MAYA_INIT_KEYS, (List.lookup k init).isSome → k ∈ q.map Action.name) ∧
      (∀ a ∈ q, a.name ≠ "animation" ∧ a.name ≠ "strict_error_checking" ∧
        a.name ≠ "version") := by
  obtain ⟨rv, hrv⟩ := Option.isSome_iff_exists.mp h_renderer
  have hfirst : ∀ k ∈ FIRST_MAYA_ACTIONS, (List.lookup k init).isSome := by
    intro k hk
    simp [FIRST_MAYA_ACTIONS] at hk
    rcases hk with rfl | rfl
    exacts [h_scene, h_proj]
  obtain ⟨fa, hfa, hfnames, _⟩ := actions_from_items_ok init FIRST_MAYA_ACTIONS hfirst
  have hfilter : ∀ k ∈ MAYA_INIT_KEYS.filter (fun k => (List.lookup k init).isSome),
      (List.lookup k init).isSome :=
    fun k hk => (List.mem_filter.mp hk).2
  obtain ⟨ra, hra, hrnames, _⟩ := actions_from_items_ok init
    (MAYA_INIT_KEYS.filter (fun k => (List.lookup k init).isSome)) hfilter
  have hrec : ∀ a ∈ (Action.mk "renderer" [("renderer", rv)] ::
      Action.mk "path_mapping"
        [("path_mapping_rules",
          JValue.obj (rules.map fun r => (r.source_path, JValue.str r.destination_path)))] ::
      (fa ++ ra)), a.name ∈
        "renderer" :: "path_mapping" :: (FIRST_MAYA_ACTIONS ++ MAYA_INIT_KEYS) := by
    intro a ha
    rcases List.mem_cons.mp ha with rfl | ha
    · simp
    rcases List.mem_cons.mp ha with rfl | ha
    · simp
    rcases List.mem_append.mp ha with ha | ha
    · have : a.name ∈ List.map Action.name fa := List.mem_map_of_mem Action.name ha
      rw [hfnames] at this
      simp [this]
    · have : a.name ∈ List.map Action.name ra := List.mem_map_of_mem Action.name ha
      rw [hrnames] at this
      have := (List.mem_filter.mp this).1
      simp [this]
  refine ⟨Action.mk "renderer" [("renderer", rv)] ::
    Action.mk "path_mapping"
      [("path_mapping_rules",
        JValue.obj (rules.map fun r => (r.source_path, JValue.str r.destination_path)))] ::
    (fa ++ ra), ?_, ?_, hrec, ?_, ?_⟩
  · simp [populate_action_queue, dict_getitem, hrv, hfa, hra]
    rfl
  · simp [hfnames, hrnames]
  · intro k hk hsome
    simp [hfnames, hrnames, List.mem_filter, hk, hsome]
  · intro a ha
    have h := hrec a ha
    simp [FIRST_MAYA_ACTIONS, MAYA_INIT_KEYS] at h
    rcases h with h | h | h | h | h | h | h | h | h | h | h | h <;> simp [h]

/-- A valid initialization payload that contains `animation`. -/
def C3_ex_init : InitData :=
  [("renderer", JValue.str "mayaSoftware"),
   ("scene_file", JValue.str "/tmp/scene.mb"),
   ("project_path", JValue.str "/tmp/proj"),
   ("animation", JValue.bool true)]

/-- Counterexample for C3 as frozen: `animation` is present in the
payload, yet `_populate_action_queue` produces only the `renderer`,
`path_mapping`, `scene_file` and `project_path` actions — no action named
`animation` is enqueued. -/
theorem C3_animation_not_forwarded :
    (List.lookup "animation" C3_ex_init).isSome = true ∧
    (populate_action_queue C3_ex_init []).toOption.map (List.map Action.name) =
      some ["renderer", "path_mapping", "scene_file", "project_path"] ∧
    (populate_action_queue C3_ex_init []).toOption.map
        (fun q => q.any (fun a => a.name == "animation")) = some false :=
  ⟨rfl, rfl, rfl⟩

/-- Witness for the amended C3 on the concrete payload: the enqueued
action names are exactly `renderer`, `path_mapping`, `scene_file`,
`project_path`, in that order. -/
theorem C3_action_queue_order_witness :
    (populate_action_queue C3_ex_init []).toOption.map (List.map Action.name) =
      some ["renderer", "path_mapping", "scene_file", "project_path"] := by
  obtain ⟨q, hq, hnames, _⟩ := C3_action_queue_order C3_ex_init [] rfl rfl rfl
  rw [hq]
  show some (List.map Action.name q) = some ["renderer", "path_mapping", "scene_file", "project_path"]
  rw [hnames]
  rfl

end MayaAdaptor

namespace MayaAdaptor

/-- C9: for every rule sequence, the Arnold path-mapping setup produces a
JSON document with exactly one top-level key — the normalized OS name
(`windows` on win32, `mac` on darwin, `linux` otherwise) — mapping each
rule's source path to its destination path with every backslash replaced
by a forward slash; the `ARNOLD_PATHMAP` environment variable is set to
the temporary file's path; and in `_start_maya_client` the setup step for
the `arnold` renderer precedes spawning the worker process.  In
particular, rule `(C:\a, /b)` on win32 yields
`{"windows": {"C:/a": "/b"}}`. -/
theorem C9_arnold_pathmapping (platform : String) (rules : List PathMappingRule)
    (temp_dir_name : String) :
    (setup_arnold_pathmapping platform rules temp_dir_name).json_doc.map Prod.fst =
      [get_arnold_osname platform]
    ∧ (platform = "win32" → get_arnold_osname platform = "windows")
    ∧ (platform = "darwin" → get_arnold_osname platform = "mac")
    ∧ (platform ≠ "win32" → platform ≠ "darwin" → get_arnold_osname platform = "linux")
    ∧ (setup_arnold_pathmapping platform rules temp_dir_name).json_doc =
        [(get_arnold_osname platform,
          rules.map fun r =>
            (replaceBackslashes r.source_path, replaceBackslashes r.destination_path))]
    ∧ (setup_arnold_pathmapping platform rules temp_dir_name).env_ARNOLD_PATHMAP =
        (setup_arnold_pathmapping platform rules temp_dir_name).file_path
    ∧ start_maya_client_steps "arnold" =
        [StartClientStep.setup_arnold_pathmapping_step, StartClientStep.spawn_worker]
    ∧ (setup_arnold_pathmapping "win32" [PathMappingRule.mk "C:\\a" "/b"]
        temp_dir_name).json_doc = [("windows", [("C:/a", "/b")])] := by
  refine ⟨by simp [setup_arnold_pathmapping, arnold_pathmapping_rules],
    ?_, ?_, ?_, rfl, rfl, rfl, ?_⟩
  · intro h
    simp [get_arnold_osname, h]
  · intro h
    simp [get_arnold_osname, h]
  · intro h1 h2
    simp [get_arnold_osname, h1, h2]
  · rfl

/-- Witness for C9 at platform `win32`: the OS key normalizes to
`windows` and the example rule is emitted with its backslash replaced. -/
theorem C9_arnold_pathmapping_witness :
    get_arnold_osname "win32" = "windows" ∧
    (setup_arnold_pathmapping "win32" [PathMappingRule.mk "C:\\a" "/b"]
      "/tmp/arnoldx1y2").json_doc = [("windows", [("C:/a", "/b")])] :=
  ⟨(C9_arnold_pathmapping "win32" [] "/tmp/arnoldx1y2").2.1 rfl,
   (C9_arnold_pathmapping "win32" [] "/tmp/arnoldx1y2").2.2.2.2.2.2.2⟩

end MayaAdaptor

/-- C10: over the flat alternating list
`[sourceA, destA, sourceB, destB]`, `DirectoryMappingDict.items` — which
zips `all_mappings[::2]` with `all_mappings[1::]` (stride 1, not 2) —
returns `[(sourceA, destA), (sourceB, sourceB)]`, pairing the second
source with itself, whereas `zip(keys(), values())` returns the true
mapping pairs `[(sourceA, destA), (sourceB, destB)]`; the two agree on
single-entry tables. -/
theorem C10_items_mispairing :
    DirMap.items ["sourceA", "destA", "sourceB", "destB"] =
      [("sourceA", "destA"), ("sourceB", "sourceB")]
    ∧ (DirMap.keys ["sourceA", "destA", "sourceB", "destB"]).zip
        (DirMap.values ["sourceA", "destA", "sourceB", "destB"]) =
      [("sourceA", "destA"), ("sourceB", "destB")]
    ∧ DirMap.items ["sourceA", "destA", "sourceB", "destB"] ≠
      (DirMap.keys ["sourceA", "destA", "sourceB", "destB"]).zip
        (DirMap.values ["sourceA", "destA", "sourceB", "destB"])
    ∧ DirMap.items ["sourceA", "destA"] =
      (DirMap.keys ["sourceA", "destA"]).zip (DirMap.values ["sourceA", "destA"]) :=
  ⟨rfl, rfl, by decide, rfl⟩
